import Mathlib

/-!
# Seedler: the request dispatch and access-control pipeline

A shallow embedding of `src/controller/index.js` (with the constants of
`src/controller/ACCESS_LEVELS.js`) and the properties proved about it.

JavaScript values are embedded as the type `Val`. Numbers are the integers.
Everything the code takes from its surroundings is a field of `World`: the
module loader `require`, the behaviour of function values when they are called,
the upper-casing of a character, and the methods of the response object.
Calls on the response object and calls of handlers are recorded as a list of
`Event`s, in the order the code makes them. Logger calls are not recorded.
-/

namespace Seedler

/-! ## Values -/

/-- The twelve symbols created at the top of `controller/index.js`. -/
inductive Sym where
  | sMethodName
  | sMethodVersion
  | sRequestParams
  | sRequestUrl
  | sRequestMethod
  | sRequestHeaders
  | sResponseCode
  | sApiResponseCode
  | sRequestObject
  | sResponseObject
  | sAuthorizedUser
  | sSecure
  deriving DecidableEq, Repr

/-- A property key: a string or one of the symbols. -/
inductive Key where
  | str (s : String)
  | sym (s : Sym)
  deriving DecidableEq, Repr

/-- The two host objects a request carries, held by reference. -/
inductive Host where
  | req
  | res
  deriving DecidableEq, Repr

/-- Identity of a function value: a function of the application (handlers), or a
built-in method inherited from `Object.prototype` or `Error.prototype`. -/
inductive FnId where
  | user (n : Nat)
  | objectProto (name : String)
  | errorProto (name : String)
  deriving DecidableEq, Repr

/-- JavaScript values. Numbers are integers. An ordinary object and a function
carry their `accessLevel` property in a typed slot (absent, or a number, as the
JSDoc of `getMethodData` declares it); `props` holds the other own properties.
An `Error` instance has its effective `name`, its `message` and further own
properties. Arrays are not modelled. -/
inductive Val where
  | undefined
  | null
  | bool (b : Bool)
  | num (n : Int)
  | str (s : String)
  | obj (accessLevel : Option Int) (props : List (Key × Val))
  | fn (id : FnId) (accessLevel : Option Int)
  | err (name : String) (message : String) (props : List (Key × Val))
  | host (h : Host)

/-- Result of the `typeof` operator. -/
inductive JSType where
  | undefined
  | object
  | boolean
  | number
  | string
  | function
  deriving DecidableEq, Repr

/-- The operator `typeof v`. -/
def typeOf : Val → JSType
  | .undefined => .undefined
  | .null => .object
  | .bool _ => .boolean
  | .num _ => .number
  | .str _ => .string
  | .obj _ _ => .object
  | .fn _ _ => .function
  | .err _ _ _ => .object
  | .host _ => .object

/-- Truthiness: `undefined`, `null`, `false`, `0` and the empty string are falsy. -/
def truthy : Val → Bool
  | .undefined => false
  | .null => false
  | .bool b => b
  | .num n => decide (n ≠ 0)
  | .str s => decide (s ≠ "")
  | _ => true

/-- The operator `a || b`. -/
def jsOr (a b : Val) : Val :=
  if truthy a then a else b

/-- The test `v instanceof Error`. -/
def isError : Val → Bool
  | .err _ _ _ => true
  | _ => false

/-- Own-property lookup in a property list. -/
def lookupKey (k : Key) : List (Key × Val) → Option Val
  | [] => none
  | (k1, v) :: rest => if k1 = k then some v else lookupKey k rest

/-- Writes one property: replaces the value of an existing key, appends a new key. -/
def setKey (k : Key) (v : Val) : List (Key × Val) → List (Key × Val)
  | [] => [(k, v)]
  | (k1, v1) :: rest => if k1 = k then (k1, v) :: rest else (k1, v1) :: setKey k v rest

/-- Writes the properties of `src` one after the other, as `Object.assign` does. -/
def setKeys (props : List (Key × Val)) (src : List (Key × Val)) : List (Key × Val) :=
  src.foldl (fun acc kv => setKey kv.1 kv.2 acc) props

/-- The value of the `accessLevel` slot as a JavaScript value. -/
def levelVal : Option Int → Option Val
  | none => none
  | some n => some (.num n)

/-- Own property `k` of a value; `none` when the value has no such own property.
The `message` of an error is its own property, its `name` is found on the
prototype, and an error carries no `accessLevel`; `props` holds its other own
properties. -/
def ownProp (v : Val) (k : Key) : Option Val :=
  match v with
  | .obj lvl props => if k = .str "accessLevel" then levelVal lvl else lookupKey k props
  | .fn _ lvl => if k = .str "accessLevel" then levelVal lvl else none
  | .err _ message props =>
    if k = .str "message" then some (.str message)
    else if k = .str "name" ∨ k = .str "accessLevel" then none
    else lookupKey k props
  | _ => none

/-- The function-valued members of `Object.prototype`. -/
def objectPrototypeMethods : List String :=
  ["constructor", "hasOwnProperty", "isPrototypeOf", "propertyIsEnumerable",
   "toLocaleString", "toString", "valueOf",
   "__defineGetter__", "__defineSetter__", "__lookupGetter__", "__lookupSetter__"]

/-- Property `k` as found on `Object.prototype`: its methods are functions, the
accessor `__proto__` yields an object, every other key is `undefined`. -/
def objectPrototype (k : Key) : Val :=
  match k with
  | .str s =>
    if s ∈ objectPrototypeMethods then .fn (.objectProto s) none
    else if s = "__proto__" then .obj none []
    else .undefined
  | .sym _ => .undefined

/-- Property `k` as found on `Error.prototype` and, behind it, `Object.prototype`. -/
def errorPrototype (name : String) (k : Key) : Val :=
  match k with
  | .str s =>
    if s = "name" then .str name
    else if s = "toString" ∨ s = "constructor" then .fn (.errorProto s) none
    else objectPrototype k
  | .sym _ => .undefined

/-- A `TypeError` instance. -/
def typeError (message : String) : Val :=
  .err "TypeError" message []

/-- Property read `v[k]` on a value other than `undefined` and `null`: the own
properties, then the prototype chain of objects and errors. Primitive values
and host objects have none of the symbol keys; string-keyed reads on them, and
reads of inherited members of functions, are not made by the embedded code and
yield `undefined` here. -/
def readProp (v : Val) (k : Key) : Val :=
  match ownProp v k with
  | some x => x
  | none =>
    match v with
    | .obj _ _ => objectPrototype k
    | .err name _ _ => errorPrototype name k
    | _ => .undefined

/-- Property read `v[k]`: throws a `TypeError` on `undefined` and `null`. -/
def getProp (v : Val) (k : Key) : Except Val Val :=
  match v with
  | .undefined => .error (typeError "Cannot read property of undefined")
  | .null => .error (typeError "Cannot read property of null")
  | _ => .ok (readProp v k)

/-- The number an object or function declares as `accessLevel`, if any: the read
`v.accessLevel`, which is a number or `undefined`. -/
def accessLevelOf : Val → Option Int
  | .obj lvl _ => lvl
  | .fn _ lvl => lvl
  | _ => none

/-- Rendering `Error.prototype.toString` gives: `name: message`, or the one that
is not empty. -/
def errorToString (name message : String) : String :=
  if name = "" then message
  else if message = "" then name
  else name ++ ": " ++ message

/-- String conversion of a value, as `new Error(message)` applies it to its
argument. Objects without a `toString` of their own render as
`[object Object]`; the source text of a function is not modelled. -/
def jsToString : Val → String
  | .undefined => "undefined"
  | .null => "null"
  | .bool b => if b then "true" else "false"
  | .num n => toString n
  | .str s => s
  | .obj _ _ => "[object Object]"
  | .fn _ _ => "function () \x7b [native code] \x7d"
  | .err name message _ => errorToString name message
  | .host _ => "[object Object]"

/-- Whether a value is an object rather than a primitive value. -/
def isObject : Val → Bool
  | .obj _ _ => true
  | .fn _ _ => true
  | .err _ _ _ => true
  | .host _ => true
  | _ => false

/-- What the built-in `Object.prototype.toString` returns for a `this` value. -/
def objectTag : Val → String
  | .undefined => "[object Undefined]"
  | .null => "[object Null]"
  | .bool _ => "[object Boolean]"
  | .num _ => "[object Number]"
  | .str _ => "[object String]"
  | .obj _ _ => "[object Object]"
  | .fn _ _ => "[object Function]"
  | .err _ _ _ => "[object Error]"
  | .host _ => "[object Object]"

/-- The call `Object.assign(target, src)` and the value the variable holding
`target` has afterwards: a `TypeError` on `undefined` and `null`; objects and
errors receive the properties; a primitive target is left as it is (the
properties go to a temporary wrapper). Functions and host objects do not occur
as request bodies and are returned unchanged. -/
def objectAssign (target : Val) (src : List (Key × Val)) : Except Val Val :=
  match target with
  | .undefined => .error (typeError "Cannot convert undefined or null to object")
  | .null => .error (typeError "Cannot convert undefined or null to object")
  | .obj lvl props => .ok (.obj lvl (setKeys props src))
  | .err name message props => .ok (.err name message (setKeys props src))
  | v => .ok v

/-! ## Constants -/

namespace ACCESS_LEVELS

def ALL : Int := 0
def KEEPER : Int := 1
def SUPPORT : Int := 2
def ROOT : Int := 3
def SYSTEM : Int := 4
def LINK : Int := 2
def WHITELIST : Int := 3
def POACHER : Int := 0
def WATCHER : Int := 1
def SURVEYOR : Int := 2
def TENANT : Int := 3
def LANDOWNER : Int := 4

end ACCESS_LEVELS

namespace STATUS_CODES

/-- Modelled from the spec: `controller/STATUS_CODES.js` is not part of the
reviewed sources; the fallback status of `throwResponseError` is the unusual
literal 418. -/
def TEAPOT : Int := 418

/-- Modelled from the spec: `controller/STATUS_CODES.js` is not part of the
reviewed sources; `NOT_FOUND=404`. -/
def NOT_FOUND : Int := 404

/-- Modelled from the spec: `controller/STATUS_CODES.js` is not part of the
reviewed sources; `FORBIDDEN=403`. -/
def FORBIDDEN : Int := 403

/-- Modelled from the spec: `controller/STATUS_CODES.js` is not part of the
reviewed sources; `UNAUTHORIZED=401`. -/
def UNAUTHORIZED : Int := 401

/-- Modelled from the spec: `controller/STATUS_CODES.js` is not part of the
reviewed sources; `SERVER_ERROR=500`. -/
def SERVER_ERROR : Int := 500

end STATUS_CODES

/-- The table `controller/API_CODES.js`, which is not part of the reviewed
sources: the six named application codes, with values left open. -/
structure ApiCodes where
  SUCCESS : Val
  UNKNOWN : Val
  API_NOT_FOUND : Val
  METHOD_NOT_FOUND : Val
  ACCESS_DENIED : Val
  UNAUTHORIZED : Val

/-! ## Requests and the surroundings of the controller -/

/-- An authenticated user: an object whose `accessLevel` is absent or a number. -/
structure User where
  accessLevel : Option Int
  props : List (Key × Val)

/-- The user object as a value. -/
def User.toVal (u : User) : Val :=
  .obj u.accessLevel u.props

/-- The route parameters the controller reads; each may be absent. -/
structure Params where
  apiName : Option String
  type : Option String
  action : Option String
  version : Option String

/-- The request as the controller reads it. A field the request lacks is `none`
(for `url`, `params`, `user`) or `Val.undefined`. -/
structure Req where
  url : Option String
  method : Val
  headers : Val
  params : Option Params
  body : Val
  user : Option User

/-- What the controller takes from its surroundings. `require path` is `none`
when no module exists at `path` (Node then throws). `call f arg` is the settled
outcome of calling the function `f` with one argument: the value it returns or
resolves to, or the value it throws. `method f thisValue` is the outcome of
calling `f` as a method of `thisValue` without arguments. `upper c` is what
`toUpperCase` makes of the first character `c` of a string. `setHeader`,
`status` and `json` are the methods of the response object: `some e` when the
call throws `e`. -/
structure World where
  require : String → Option Val
  call : FnId → Val → Except Val Val
  method : FnId → Val → Except Val Val
  upper : Char → String
  setHeader : String → String → Option Val
  status : Val → Option Val
  json : Val → Option Val
  packageDescription : String

/-- Calls made on the surroundings, in the order the controller makes them. -/
inductive Event where
  | invoke (f : FnId) (body : Val)
  | setHeader (name : String) (value : String)
  | status (code : Val)
  | json (envelope : Val)

/-! ## Method calls and conversion to a string -/

/-- The call `f.call(thisValue)`. The built-in `Object.prototype.toString` and
`Object.prototype.valueOf` (which returns the object it is called on), and
`Error.prototype.toString` on an error, are fixed; every other function behaves
as the world says. -/
def callThis (w : World) (f : FnId) (thisValue : Val) : Except Val Val :=
  match f with
  | .objectProto name =>
    if name = "toString" then .ok (.str (objectTag thisValue))
    else if name = "valueOf" then
      match thisValue with
      | .undefined => .error (typeError "Cannot convert undefined or null to object")
      | .null => .error (typeError "Cannot convert undefined or null to object")
      | v => .ok v
    else w.method f thisValue
  | .errorProto name =>
    match thisValue with
    | .err errorName message _ =>
      if name = "toString" then .ok (.str (errorToString errorName message))
      else w.method f thisValue
    | _ => w.method f thisValue
  | .user _ => w.method f thisValue

/-- The call `receiver.name()`: a `TypeError` when `receiver[name]` is not a
function. -/
def callMethod (w : World) (receiver : Val) (name : String) : Except Val Val :=
  match getProp receiver (.str name) with
  | .error e => .error e
  | .ok (.fn f _) => callThis w f receiver
  | .ok _ => .error (typeError (name ++ " is not a function"))

/-- One step of the conversion of an object to a primitive value: when
`v[name]` is a function it is called on `v`, and a result that is not an object
is the primitive value sought. -/
def primitiveFrom (w : World) (v : Val) (name : String) : Except Val (Option Val) :=
  match readProp v (.str name) with
  | .fn f _ =>
    match callThis w f v with
    | .error e => .error e
    | .ok r => if isObject r then .ok none else .ok (some r)
  | _ => .ok none

/-- Conversion to a primitive value with the hint `string`: a primitive value is
itself; on an object `toString` is tried, then `valueOf`, and a `TypeError` is
thrown when neither gives a primitive value. It is applied to the user of a
request. -/
def toPrimitive (w : World) (v : Val) : Except Val Val :=
  if isObject v then
    match primitiveFrom w v "toString" with
    | .error e => .error e
    | .ok (some p) => .ok p
    | .ok none =>
      match primitiveFrom w v "valueOf" with
      | .error e => .error e
      | .ok (some p) => .ok p
      | .ok none => .error (typeError "Cannot convert object to primitive value")
  else .ok v

/-- The conversion a template literal applies to an embedded value. -/
def templateString (w : World) (v : Val) : Except Val String :=
  match toPrimitive w v with
  | .error e => .error e
  | .ok p => .ok (jsToString p)

/-! ## Access control -/

/-- The comparison `a < n` where `a` is `undefined` (`none`) or a number:
`undefined < n` is false. -/
def ltLevel (a : Option Int) (n : Int) : Bool :=
  match a with
  | none => false
  | some x => decide (x < n)

/-- The function `accessDenied(user, methodAccessLevel = 0)`. -/
def accessDenied (user : Option User) (methodAccessLevel : Option Int) : Bool :=
  let methodAccessLevel := methodAccessLevel.getD 0
  match user with
  | none => if methodAccessLevel > ACCESS_LEVELS.ALL then true else false
  | some u => if ltLevel u.accessLevel methodAccessLevel then true else false

/-- The function `throwResponseError(code, apiCode, message)`, with its three
default parameters; it always throws the error it builds. -/
def throwResponseError {α : Type} (codes : ApiCodes) (code : Val) (apiCode : Val)
    (message : Val) : Except Val α :=
  let code := match code with
    | .undefined => Val.num STATUS_CODES.TEAPOT
    | c => c
  let apiCode := match apiCode with
    | .undefined => codes.UNKNOWN
    | c => c
  let message := match message with
    | .undefined => Val.str "Unknown reason"
    | m => m
  let props : List (Key × Val) :=
    if typeOf message = .object then [(.str "detailedObject", message)] else []
  .error (.err "Error" (jsToString message)
    (setKeys props [(.sym .sResponseCode, code), (.sym .sApiResponseCode, apiCode)]))

/-- The function `checkPermissions(user, methodPermissions = 0)`. -/
def checkPermissions (codes : ApiCodes) (user : Option User) (methodPermissions : Option Int) :
    Except Val Unit :=
  let methodPermissions := methodPermissions.getD 0
  let isAccessDenied := accessDenied user (some methodPermissions)
  if isAccessDenied then
    match user with
    | some _ =>
      throwResponseError codes (.num STATUS_CODES.FORBIDDEN) codes.ACCESS_DENIED
        (.str "You have no power here")
    | none =>
      throwResponseError codes (.num STATUS_CODES.UNAUTHORIZED) codes.UNAUTHORIZED
        (.str "You have no power. Authorize, please")
  else .ok ()

/-! ## Handler resolution -/

/-- What `getMethodData` returns. -/
structure MethodData where
  api : Val
  apiName : String
  methodName : String
  version : String
  requestHandler : Val
  accessLevel : Option Int
  apiAccessLevel : Option Int

/-- The call `require(path)`: the exported value, or the error Node throws when
no module exists at `path`. -/
def requireModule (w : World) (path : String) : Except Val Val :=
  match w.require path with
  | some v => .ok v
  | none =>
    .error (.err "Error" ("Cannot find module \x27" ++ path ++ "\x27")
      [(.str "code", .str "MODULE_NOT_FOUND")])

/-- The method name `getMethodData` computes: `action`, followed, when `type` is
not empty, by `type[0].toUpperCase() + type.slice(1)`. -/
def methodNameOf (upper : Char → String) (action type : String) : String :=
  match type.data with
  | [] => action
  | c :: cs => action ++ (upper c ++ String.mk cs)

/-- The destructuring default `params = \x7b\x7d`: the route parameters of the
request, all absent when the request has none. -/
def Req.routeParams (req : Req) : Params :=
  req.params.getD ⟨none, none, none, none⟩

/-- The function `getMethodData(req)`. -/
def getMethodData (w : World) (codes : ApiCodes) (req : Req) : Except Val MethodData :=
  let url := req.url.getD ""
  let params := req.routeParams
  let apiName := params.apiName.getD ""
  let type := params.type.getD ""
  let action := params.action.getD ""
  let version := params.version.getD "v1"
  match requireModule w ("../api/" ++ version ++ "/" ++ apiName) with
  | .error e => .error e
  | .ok api =>
    if typeOf api ≠ .object then
      throwResponseError codes (.num STATUS_CODES.NOT_FOUND) codes.API_NOT_FOUND
        (.str ("Undefined api: url: " ++ url))
    else
      let methodName := methodNameOf w.upper action type
      match getProp api (.str methodName) with
      | .error e => .error e
      | .ok requestHandler =>
        if typeOf requestHandler ≠ .function then
          throwResponseError codes (.num STATUS_CODES.NOT_FOUND) codes.METHOD_NOT_FOUND
            (.str ("Undefined api method: " ++ methodName ++ " from url: " ++ url))
        else
          .ok {
            api := api
            apiName := apiName
            methodName := methodName
            version := version
            requestHandler := requestHandler
            accessLevel := accessLevelOf requestHandler
            apiAccessLevel := accessLevelOf api }

/-! ## Response normalisation and sending -/

/-- The default parameter `= \x7b\x7d`: an argument that is `undefined` is replaced
by a new empty object. -/
def orEmptyObject : Val → Val
  | .undefined => .obj none []
  | v => v

/-- The function `createResponseObject(resultObject = \x7b\x7d)`. In the branch of
error instances `resultObject.toString()` is called only when
`resultObject.detailedObject` is falsy. -/
def createResponseObject (w : World) (codes : ApiCodes) (resultObject : Val) :
    Except Val Val :=
  let resultObject := orEmptyObject resultObject
  match resultObject with
  | .err _ _ _ =>
    let errorCode :=
      jsOr (readProp resultObject (.sym .sResponseCode)) (.num STATUS_CODES.SERVER_ERROR)
    let apiCode := jsOr (readProp resultObject (.sym .sApiResponseCode)) codes.UNKNOWN
    let detailedObject := readProp resultObject (.str "detailedObject")
    if truthy detailedObject then
      .ok (.obj none [
        (.str "code", apiCode),
        (.str "body", detailedObject),
        (.sym .sResponseCode, errorCode)])
    else
      match callMethod w resultObject "toString" with
      | .error e => .error e
      | .ok rendering =>
        .ok (.obj none [
          (.str "code", apiCode),
          (.str "body", rendering),
          (.sym .sResponseCode, errorCode)])
  | _ =>
    match getProp resultObject (.sym .sApiResponseCode) with
    | .error e => .error e
    | .ok ownCode =>
      let apiCode := jsOr ownCode codes.SUCCESS
      let responseObject : List (Key × Val) :=
        [(.str "code", apiCode), (.str "body", resultObject)]
      if typeOf resultObject = .object then
        let responseCode := readProp resultObject (.sym .sResponseCode)
        if truthy responseCode then
          .ok (.obj none (setKey (.sym .sResponseCode) responseCode responseObject))
        else .ok (.obj none responseObject)
      else .ok (.obj none responseObject)

/-- The test `statusCode !== 200`. -/
def isNot200 : Val → Bool
  | .num n => decide (n ≠ 200)
  | _ => true

/-- The function `sendResponse(req, res, result)`: the calls it makes on the
response object and its outcome. A throw of `res.status` is caught and logged,
so both outcomes of that call continue alike. -/
def sendResponse (w : World) (result : Val) : List Event × Except Val Val :=
  let result := orEmptyObject result
  match getProp result (.sym .sResponseCode) with
  | .error e => ([], .error e)
  | .ok code =>
    let statusCode := jsOr code (.num 200)
    let statusCalls : List Event :=
      if isNot200 statusCode then
        match w.status statusCode with
        | some _ => [.status statusCode]
        | none => [.status statusCode]
      else []
    match w.json result with
    | some e => (statusCalls ++ [.json result], .error e)
    | none => (statusCalls ++ [.json result], .ok (.bool true))

/-! ## The orchestrator -/

/-- Calls `res.setHeader` for each header in turn, stopping at the first throw. -/
def setHeaders (w : World) : List (String × String) → List Event × Except Val Unit
  | [] => ([], .ok ())
  | (name, value) :: rest =>
    match w.setHeader name value with
    | some e => ([.setHeader name value], .error e)
    | none => ((.setHeader name value) :: (setHeaders w rest).1, (setHeaders w rest).2)

/-- The function `setControlHeaders(res, params)`. -/
def setControlHeaders (w : World) : List Event × Except Val Unit :=
  setHeaders w [
    ("X-Version", w.packageDescription),
    ("X-Content-Type-Options", "nosniff"),
    ("X-Frame-Options", "DENY"),
    ("Cache-Control", "no-cache")]

/-- An optional string as a value. -/
def optStr : Option String → Val
  | none => .undefined
  | some s => .str s

/-- The optional user as a value. -/
def userVal : Option User → Val
  | none => .undefined
  | some u => u.toVal

/-- The route parameters as a value: an object holding the parameters present. -/
def paramsVal : Option Params → Val
  | none => .undefined
  | some p =>
    .obj none
      ([(Key.str "version", optStr p.version), (Key.str "apiName", optStr p.apiName),
        (Key.str "action", optStr p.action), (Key.str "type", optStr p.type)].filter
          (fun kv => match kv.2 with
            | .undefined => false
            | _ => true))

/-- The effective required level `Math.max(apiAccessLevel, accessLevel)`, each
level `ALL` when undeclared. -/
def requiredLevel (apiAccessLevel accessLevel : Option Int) : Int :=
  max (apiAccessLevel.getD ACCESS_LEVELS.ALL) (accessLevel.getD ACCESS_LEVELS.ALL)

/-- The metadata `routeHandler` assigns to the body. `getMethodData` returns no
`apiVersionName`, so the value stored under `sMethodVersion` is `undefined`. -/
def metadata (req : Req) (md : MethodData) : List (Key × Val) :=
  [(.sym .sRequestObject, .host .req),
   (.sym .sResponseObject, .host .res),
   (.sym .sRequestUrl, optStr req.url),
   (.sym .sRequestHeaders, req.headers),
   (.sym .sRequestMethod, req.method),
   (.sym .sRequestParams, paramsVal req.params),
   (.sym .sMethodName, .str md.methodName),
   (.sym .sMethodVersion, .undefined),
   (.sym .sAuthorizedUser, userVal req.user)]

/-- The call `requestHandler(body)`: recorded, with the outcome the world gives;
calling a value that is not a function throws a `TypeError`. -/
def callHandler (w : World) (requestHandler : Val) (body : Val) : List Event × Except Val Val :=
  match requestHandler with
  | .fn f _ => ([.invoke f body], w.call f body)
  | _ => ([], .error (typeError "requestHandler is not a function"))

/-- The second callback of `routeHandler`: the text of the debug log line (in
which the user is converted to a string), authorization, enrichment of the
body, control headers, invocation of the handler. -/
def authorizeAndInvoke (w : World) (codes : ApiCodes) (req : Req) (md : MethodData) :
    List Event × Except Val Val :=
  match templateString w (userVal req.user) with
  | .error e => ([], .error e)
  | .ok _ =>
    match checkPermissions codes req.user
        (some (requiredLevel md.apiAccessLevel md.accessLevel)) with
    | .error e => ([], .error e)
    | .ok _ =>
      match objectAssign req.body (metadata req md) with
      | .error e => ([], .error e)
      | .ok body =>
        match setControlHeaders w with
        | (headerCalls, .error e) => (headerCalls, .error e)
        | (headerCalls, .ok _) =>
          (headerCalls ++ (callHandler w md.requestHandler body).1,
            (callHandler w md.requestHandler body).2)

/-- What a run of `routeHandler` leaves: the calls made and the settlement of the
promise it returns. -/
structure Run where
  events : List Event
  settled : Except Val Val

/-- The function `routeHandler(req, res)`, one promise callback after the other. -/
def routeHandler (w : World) (codes : ApiCodes) (req : Req) : Run :=
  -- .then(() => getMethodData(req)).then(methodData => ...)
  let invoked : List Event × Except Val Val :=
    match getMethodData w codes req with
    | .error e => ([], .error e)
    | .ok methodData => authorizeAndInvoke w codes req methodData
  -- .then(result => createResponseObject(result))
  let normalized : Except Val Val :=
    match invoked.2 with
    | .ok result => createResponseObject w codes result
    | .error e => .error e
  -- .catch(err => createResponseObject(err))
  let recovered : Except Val Val :=
    match normalized with
    | .ok result => .ok result
    | .error err => createResponseObject w codes err
  -- .then(result => sendResponse(req, res, result))
  let sent : List Event × Except Val Val :=
    match recovered with
    | .ok result => sendResponse w result
    | .error e => ([], .error e)
  -- .catch(err => logger.error(...))
  let settled : Except Val Val :=
    match sent.2 with
    | .ok v => .ok v
    | .error _ => .ok .undefined
  { events := invoked.1 ++ sent.1, settled := settled }

/-! ## Vocabulary of the statements -/

/-- The handler invocations among the calls made, in order. -/
def invocations : List Event → List (FnId × Val)
  | [] => []
  | .invoke f body :: rest => (f, body) :: invocations rest
  | _ :: rest => invocations rest

/-- The error `throwResponseError` throws for a status, an API code and a text. -/
def responseError (status : Int) (apiCode : Val) (text : String) : Val :=
  .err "Error" text [(.sym .sResponseCode, .num status), (.sym .sApiResponseCode, apiCode)]

/-- The envelope of an error with a status, an API code and a text: the API code
as `code`, the string rendering of the error as `body`, the status under
`sResponseCode`. -/
def errorEnvelope (status : Int) (apiCode : Val) (text : String) : Val :=
  .obj none [(.str "code", apiCode), (.str "body", .str ("Error: " ++ text)),
    (.sym .sResponseCode, .num status)]

/-- The four `res.setHeader` calls of `setControlHeaders`. -/
def controlHeaderEvents (w : World) : List Event :=
  [.setHeader "X-Version" w.packageDescription,
   .setHeader "X-Content-Type-Options" "nosniff",
   .setHeader "X-Frame-Options" "DENY",
   .setHeader "Cache-Control" "no-cache"]

/-- The calls `sendResponse` makes for an envelope: `res.status` when the status
of the envelope is truthy and not 200, then `res.json`. -/
def sendEvents (envelope : Val) : List Event :=
  (if isNot200 (jsOr (readProp envelope (.sym .sResponseCode)) (.num 200)) then
    [Event.status (jsOr (readProp envelope (.sym .sResponseCode)) (.num 200))]
   else []) ++ [Event.json envelope]

/-- The envelopes passed to `res.json` among the calls made, in order. -/
def jsonCalls : List Event → List Val
  | [] => []
  | .json envelope :: rest => envelope :: jsonCalls rest
  | _ :: rest => jsonCalls rest

/-- The headers passed to `res.setHeader` among the calls made, in order. -/
def headerCalls : List Event → List (String × String)
  | [] => []
  | .setHeader name value :: rest => (name, value) :: headerCalls rest
  | _ :: rest => headerCalls rest

/-! ## A concrete deployment, for the examples -/

/-- Upper-casing of ASCII letters. -/
def asciiUpper (c : Char) : String :=
  String.singleton c.toUpper

/-- A table of API codes: each code is the string of its name. -/
def exampleCodes : ApiCodes :=
  { SUCCESS := .str "SUCCESS"
    UNKNOWN := .str "UNKNOWN"
    API_NOT_FOUND := .str "API_NOT_FOUND"
    METHOD_NOT_FOUND := .str "METHOD_NOT_FOUND"
    ACCESS_DENIED := .str "ACCESS_DENIED"
    UNAUTHORIZED := .str "UNAUTHORIZED" }

/-- An API module with access level `KEEPER` and one method `listAll` of access
level `ALL`. -/
def exampleModule : Val :=
  .obj (some ACCESS_LEVELS.KEEPER) [(.str "listAll", .fn (.user 0) (some ACCESS_LEVELS.ALL))]

/-- A deployment with the single module `v1/forests`; every function called
settles with `outcome`, every function called as a method returns a text, and
the response object never throws. -/
def exampleWorld (outcome : Except Val Val) : World :=
  { require := fun path => if path = "../api/v1/forests" then some exampleModule else none
    call := fun _ _ => outcome
    method := fun _ _ => .ok (.str "text")
    upper := asciiUpper
    setHeader := fun _ _ => none
    status := fun _ => none
    json := fun _ => none
    packageDescription := "seedler#1.0.0" }

/-- A request for `apiName/action/type` of version `v1` with an empty body. -/
def exampleReq (apiName action : String) (type : Option String) (user : Option User) : Req :=
  { url := some "/api/v1"
    method := .str "POST"
    headers := .obj none []
    params := some ⟨some apiName, type, some action, some "v1"⟩
    body := .obj none []
    user := user }

/-- What `getMethodData` returns for `forests/list/all` in the example deployment. -/
def exampleMethodData : MethodData :=
  { api := exampleModule
    apiName := "forests"
    methodName := "listAll"
    version := "v1"
    requestHandler := .fn (.user 0) (some ACCESS_LEVELS.ALL)
    accessLevel := some ACCESS_LEVELS.ALL
    apiAccessLevel := some ACCESS_LEVELS.KEEPER }

/-- A user of access level `level`. -/
def userOfLevel (level : Int) : User :=
  ⟨some level, []⟩

/-- The example deployment with a response object whose `status` and `json`
throw what is given (`none`: the call returns). -/
def responseWorld (outcome : Except Val Val) (statusThrows jsonThrows : Option Val) : World :=
  { require := (exampleWorld outcome).require
    call := (exampleWorld outcome).call
    method := (exampleWorld outcome).method
    upper := (exampleWorld outcome).upper
    setHeader := (exampleWorld outcome).setHeader
    status := fun _ => statusThrows
    json := fun _ => jsonThrows
    packageDescription := (exampleWorld outcome).packageDescription }

/-- A request by a user of level `KEEPER` whose body uses the names of the
reserved keys as string keys. -/
def forgedReq : Req :=
  { url := some "/api/v1"
    method := .str "POST"
    headers := .obj none []
    params := some ⟨some "forests", some "all", some "list", some "v1"⟩
    body := .obj none [(.str "sRequestUrl", .str "forged"), (.str "sAuthorizedUser", .str "root")]
    user := some (userOfLevel 1) }

/-- A user of access level `level` whose own property `toString` is a string,
not a function. -/
def userWithoutRendering (level : Int) : User :=
  ⟨some level, [(.str "toString", .str "x")]⟩

/-- An error instance with message `boom` whose own property `toString` is a
string, not a function. -/
def errorWithoutRendering : Val :=
  .err "Error" "boom" [(.str "toString", .str "x")]

/-! ## Lemmas -/

theorem truthy_ne_undefined {c : Val} (h : truthy c = true) : c ≠ .undefined := by
  intro hc
  subst hc
  simp [truthy] at h

theorem throwResponseError_text {α : Type} (codes : ApiCodes) (status : Int) (apiCode : Val)
    (text : String) (h : apiCode ≠ .undefined) :
    (throwResponseError codes (.num status) apiCode (.str text) : Except Val α) =
      .error (responseError status apiCode text) := by
  cases apiCode <;> first | exact absurd rfl h | rfl

theorem checkPermissions_anonymous (codes : ApiCodes) (n : Int)
    (h : accessDenied none (some n) = true) (hc : codes.UNAUTHORIZED ≠ .undefined) :
    checkPermissions codes none (some n) =
      .error (responseError STATUS_CODES.UNAUTHORIZED codes.UNAUTHORIZED
        "You have no power. Authorize, please") := by
  simp only [checkPermissions, Option.getD_some, h, if_true]
  exact throwResponseError_text codes _ _ _ hc

theorem checkPermissions_user (codes : ApiCodes) (u : User) (n : Int)
    (h : accessDenied (some u) (some n) = true) (hc : codes.ACCESS_DENIED ≠ .undefined) :
    checkPermissions codes (some u) (some n) =
      .error (responseError STATUS_CODES.FORBIDDEN codes.ACCESS_DENIED
        "You have no power here") := by
  simp only [checkPermissions, Option.getD_some, h, if_true]
  exact throwResponseError_text codes _ _ _ hc

theorem checkPermissions_allowed (codes : ApiCodes) (user : Option User) (n : Int)
    (h : accessDenied user (some n) = false) :
    checkPermissions codes user (some n) = .ok () := by
  simp [checkPermissions, h]

theorem sendResponse_events (w : World) (lvl : Option Int) (props : List (Key × Val)) :
    (sendResponse w (.obj lvl props)).1 = sendEvents (.obj lvl props) := by
  have hstatus : ∀ code : Val,
      (match w.status code with
        | some _ => [Event.status code]
        | none => [Event.status code]) = [Event.status code] := by
    intro code
    cases w.status code <;> rfl
  simp only [sendResponse, orEmptyObject, getProp, sendEvents, hstatus]
  cases w.json (.obj lvl props) <;> rfl

theorem templateString_anonymous (w : World) :
    templateString w (userVal none) = .ok "undefined" := rfl

theorem callMethod_builtin_rendering (w : World) (name message : String)
    (props : List (Key × Val)) (h : lookupKey (.str "toString") props = none) :
    callMethod w (.err name message props) "toString" =
      .ok (.str (errorToString name message)) := by
  simp [callMethod, getProp, readProp, ownProp, h, errorPrototype, callThis]

theorem createResponseObject_responseError (w : World) (codes : ApiCodes) (status : Int)
    (apiCode : Val) (text : String) (hs : status ≠ 0) (ha : truthy apiCode = true)
    (ht : text ≠ "") :
    createResponseObject w codes (responseError status apiCode text) =
      .ok (errorEnvelope status apiCode text) := by
  have h1 : truthy (Val.num status) = true := by simp [truthy, hs]
  have h2 : truthy Val.undefined = false := rfl
  have h3 : callMethod w (responseError status apiCode text) "toString" =
      .ok (.str (errorToString "Error" text)) :=
    callMethod_builtin_rendering w "Error" text _ (by simp [lookupKey])
  simp only [responseError] at h3
  simp only [createResponseObject, orEmptyObject, responseError, h3]
  simp [errorEnvelope, readProp, ownProp, lookupKey, jsOr, h1, h2, ha,
    errorPrototype, objectPrototype, objectPrototypeMethods, errorToString, ht]

theorem routeHandler_denied (w : World) (codes : ApiCodes) (req : Req) (md : MethodData)
    (status : Int) (apiCode : Val) (text : String)
    (line : String)
    (hmd : getMethodData w codes req = .ok md)
    (hlog : templateString w (userVal req.user) = .ok line)
    (hs : status ≠ 0) (hs2 : status ≠ 200) (ha : truthy apiCode = true) (ht : text ≠ "")
    (hc : checkPermissions codes req.user
      (some (requiredLevel md.apiAccessLevel md.accessLevel)) =
        .error (responseError status apiCode text)) :
    (routeHandler w codes req).events =
      [.status (.num status), .json (errorEnvelope status apiCode text)] := by
  have h1 : truthy (Val.num status) = true := by simp [truthy, hs]
  simp only [routeHandler, hmd, authorizeAndInvoke, hlog, hc,
    createResponseObject_responseError w codes status apiCode text hs ha ht]
  simp [errorEnvelope, sendResponse_events, sendEvents, readProp, ownProp, lookupKey, jsOr, h1,
    isNot200, hs2]

theorem readProp_err_sym (name message : String) (props : List (Key × Val)) (s : Sym) :
    readProp (.err name message props) (.sym s) = (lookupKey (.sym s) props).getD .undefined := by
  simp only [readProp, ownProp]
  cases lookupKey (.sym s) props <;> simp [errorPrototype]

theorem readProp_err_detailedObject (name message : String) (props : List (Key × Val)) :
    readProp (.err name message props) (.str "detailedObject") =
      (lookupKey (.str "detailedObject") props).getD .undefined := by
  simp only [readProp, ownProp]
  cases lookupKey (.str "detailedObject") props <;>
    simp [errorPrototype, objectPrototype, objectPrototypeMethods]

theorem createResponseObject_errorInstance (w : World) (codes : ApiCodes)
    (name message : String) (props : List (Key × Val)) (rendering : Val)
    (hr : truthy ((lookupKey (.str "detailedObject") props).getD .undefined) = false →
      callMethod w (.err name message props) "toString" = .ok rendering) :
    createResponseObject w codes (.err name message props) =
      .ok (.obj none [
        (.str "code", jsOr ((lookupKey (.sym .sApiResponseCode) props).getD .undefined)
          codes.UNKNOWN),
        (.str "body", jsOr ((lookupKey (.str "detailedObject") props).getD .undefined)
          rendering),
        (.sym .sResponseCode, jsOr ((lookupKey (.sym .sResponseCode) props).getD .undefined)
          (.num STATUS_CODES.SERVER_ERROR))]) := by
  simp only [createResponseObject, orEmptyObject, readProp_err_sym, readProp_err_detailedObject]
  cases hd : truthy ((lookupKey (.str "detailedObject") props).getD .undefined) with
  | true => simp [jsOr, hd]
  | false => simp [jsOr, hd, hr hd]

theorem createResponseObject_value (w : World) (codes : ApiCodes) (v : Val) (hn : v ≠ .null)
    (he : isError v = false) :
    ∃ envelope, createResponseObject w codes v = .ok (.obj none envelope) ∧
      lookupKey (.str "body") envelope = some (orEmptyObject v) ∧
      lookupKey (.str "code") envelope =
        some (if truthy (readProp (orEmptyObject v) (.sym .sApiResponseCode)) then
          readProp (orEmptyObject v) (.sym .sApiResponseCode) else codes.SUCCESS) ∧
      lookupKey (.sym .sResponseCode) envelope =
        (if typeOf (orEmptyObject v) = .object ∧
            truthy (readProp (orEmptyObject v) (.sym .sResponseCode)) = true then
          some (readProp (orEmptyObject v) (.sym .sResponseCode)) else none) := by
  cases v with
  | null => exact absurd rfl hn
  | err _ _ _ => simp [isError] at he
  | obj lvl props =>
    by_cases hrc : truthy (readProp (.obj lvl props) (.sym .sResponseCode)) = true
    · refine ⟨_, by simp [createResponseObject, orEmptyObject, getProp, typeOf, hrc]; rfl, ?_⟩
      simp [setKey, lookupKey, orEmptyObject, typeOf, hrc, jsOr]
    · refine ⟨_, by simp [createResponseObject, orEmptyObject, getProp, typeOf, hrc]; rfl, ?_⟩
      simp [lookupKey, orEmptyObject, typeOf, hrc, jsOr]
  | undefined => exact ⟨_, rfl, rfl, rfl, rfl⟩
  | bool b => exact ⟨_, rfl, rfl, rfl, by simp [typeOf, orEmptyObject, lookupKey]⟩
  | num n => exact ⟨_, rfl, rfl, rfl, by simp [typeOf, orEmptyObject, lookupKey]⟩
  | str s => exact ⟨_, rfl, rfl, rfl, by simp [typeOf, orEmptyObject, lookupKey]⟩
  | fn f l => exact ⟨_, rfl, rfl, rfl, by simp [typeOf, orEmptyObject, lookupKey]⟩
  | host h =>
    exact ⟨_, rfl, rfl, rfl, by simp [typeOf, orEmptyObject, lookupKey, readProp, ownProp, truthy]⟩

theorem sendEvents_no_status (envelope : List (Key × Val))
    (h : lookupKey (.sym .sResponseCode) envelope = none) :
    sendEvents (.obj none envelope) = [.json (.obj none envelope)] := by
  have h2 : truthy Val.undefined = false := rfl
  simp [sendEvents, readProp, ownProp, h, objectPrototype, jsOr, h2, isNot200]

theorem invocations_append (xs ys : List Event) :
    invocations (xs ++ ys) = invocations xs ++ invocations ys := by
  induction xs with
  | nil => rfl
  | cons x xs ih => cases x <;> simp [invocations, ih]

theorem invocations_sendEvents (envelope : Val) : invocations (sendEvents envelope) = [] := by
  unfold sendEvents
  split <;> rfl

theorem setControlHeaders_ok (w : World) (h : ∀ name value, w.setHeader name value = none) :
    setControlHeaders w = (controlHeaderEvents w, .ok ()) := by
  simp [setControlHeaders, setHeaders, h, controlHeaderEvents]

/-- What a successful `getMethodData` has established. -/
theorem getMethodData_ok (w : World) (codes : ApiCodes) (req : Req) (md : MethodData)
    (h : getMethodData w codes req = .ok md) :
    requireModule w ("../api/" ++ req.routeParams.version.getD "v1" ++ "/" ++
        req.routeParams.apiName.getD "") = .ok md.api ∧
    typeOf md.api = .object ∧
    md.methodName = methodNameOf w.upper (req.routeParams.action.getD "")
      (req.routeParams.type.getD "") ∧
    getProp md.api (.str md.methodName) = .ok md.requestHandler ∧
    typeOf md.requestHandler = .function ∧
    md.accessLevel = accessLevelOf md.requestHandler ∧
    md.apiAccessLevel = accessLevelOf md.api := by
  unfold getMethodData at h
  simp only at h
  split at h
  · exact absurd h (by simp)
  · rename_i api hreq
    split at h
    · exact absurd h (by simp [throwResponseError])
    · rename_i hty
      split at h
      · exact absurd h (by simp)
      · rename_i handler hget
        split at h
        · exact absurd h (by simp [throwResponseError])
        · rename_i hfn
          simp only [Except.ok.injEq] at h
          subst h
          simp only [ne_eq, not_not] at hty hfn
          exact ⟨hreq, hty, rfl, hget, hfn, rfl, rfl⟩

theorem sendResponse_returns (w : World) (result v : Val)
    (h : (sendResponse w result).2 = .ok v) : v = .bool true := by
  unfold sendResponse at h
  simp only at h
  split at h
  · simp at h
  · split at h
    · simp at h
    · simp at h
      exact h.symm

theorem lookupKey_setKey (k k1 : Key) (v : Val) (props : List (Key × Val)) :
    lookupKey k (setKey k1 v props) = if k1 = k then some v else lookupKey k props := by
  induction props with
  | nil => simp [setKey, lookupKey]
  | cons p rest ih =>
    obtain ⟨k2, v2⟩ := p
    simp only [setKey]
    by_cases h21 : k2 = k1
    · subst h21
      simp only [if_true, lookupKey]
      by_cases h2 : k2 = k <;> simp [h2]
    · simp only [h21, if_false, lookupKey, ih]
      by_cases h2 : k2 = k
      · subst h2
        have : ¬ k1 = k2 := fun h => h21 h.symm
        simp [this]
      · simp [h2]

theorem lookupKey_metadata_str (req : Req) (md : MethodData) (props : List (Key × Val))
    (k : String) :
    lookupKey (.str k) (setKeys props (metadata req md)) = lookupKey (.str k) props := by
  simp [setKeys, metadata, lookupKey_setKey]

theorem lookupKey_metadata_sym (req : Req) (md : MethodData) (props : List (Key × Val))
    (s : Sym) (v : Val) (h : lookupKey (.sym s) (metadata req md) = some v) :
    lookupKey (.sym s) (setKeys props (metadata req md)) = some v := by
  cases s <;> simp_all [setKeys, metadata, lookupKey_setKey, lookupKey]

theorem headerCalls_append (xs ys : List Event) :
    headerCalls (xs ++ ys) = headerCalls xs ++ headerCalls ys := by
  induction xs with
  | nil => rfl
  | cons x xs ih => cases x <;> simp [headerCalls, ih]

theorem headerCalls_sendResponse (w : World) (result : Val) :
    headerCalls (sendResponse w result).1 = [] := by
  unfold sendResponse
  simp only
  split
  · rfl
  · split <;> (simp only [headerCalls_append]; split <;> (try split) <;> rfl)


/-! ## Theorems -/

/-- C1: `accessDenied(user, n)` is true exactly when no user is given and `n > ALL`,
or a user is given and `user.accessLevel < n`; an anonymous caller is allowed at
required level 0. -/
theorem accessDenied_iff (user : Option User) (n : Int) :
    (accessDenied user (some n) = true ↔
      (user = none ∧ n > ACCESS_LEVELS.ALL) ∨
      (∃ u a, user = some u ∧ u.accessLevel = some a ∧ a < n)) ∧
    accessDenied none (some ACCESS_LEVELS.ALL) = false := by
  refine ⟨?_, by simp [accessDenied, ACCESS_LEVELS.ALL]⟩
  cases user with
  | none => simp [accessDenied]
  | some u =>
    cases h : u.accessLevel with
    | none => simp [accessDenied, ltLevel, h]
    | some a => simp [accessDenied, ltLevel, h]

/-- C2: `checkPermissions(user, n)` throws if and only if `accessDenied(user, n)`
holds; thrown with no user, the error carries status `UNAUTHORIZED` (401) and API
code `UNAUTHORIZED`; thrown with a user present, it carries status `FORBIDDEN`
(403) and API code `ACCESS_DENIED`. The table of API codes defines both codes. -/
theorem checkPermissions_throws_iff (codes : ApiCodes) (user : Option User) (n : Int)
    (hU : codes.UNAUTHORIZED ≠ .undefined) (hD : codes.ACCESS_DENIED ≠ .undefined) :
    ((∃ e, checkPermissions codes user (some n) = .error e) ↔
      accessDenied user (some n) = true) ∧
    (∀ e, checkPermissions codes user (some n) = .error e → user = none →
      STATUS_CODES.UNAUTHORIZED = 401 ∧
      readProp e (.sym .sResponseCode) = .num STATUS_CODES.UNAUTHORIZED ∧
      readProp e (.sym .sApiResponseCode) = codes.UNAUTHORIZED) ∧
    (∀ e u, checkPermissions codes user (some n) = .error e → user = some u →
      STATUS_CODES.FORBIDDEN = 403 ∧
      readProp e (.sym .sResponseCode) = .num STATUS_CODES.FORBIDDEN ∧
      readProp e (.sym .sApiResponseCode) = codes.ACCESS_DENIED) := by
  cases hden : accessDenied user (some n) with
  | false => simp [checkPermissions_allowed codes user n hden]
  | true =>
    cases user with
    | none =>
      simp [checkPermissions_anonymous codes n hden hU, responseError, readProp, ownProp,
        lookupKey, STATUS_CODES.UNAUTHORIZED]
    | some u =>
      simp [checkPermissions_user codes u n hden hD, responseError, readProp, ownProp,
        lookupKey, STATUS_CODES.FORBIDDEN]

/-- Witness of C2: an anonymous caller at level `KEEPER`. -/
theorem checkPermissions_throws_iff_witness :
    exampleCodes.UNAUTHORIZED ≠ .undefined ∧ exampleCodes.ACCESS_DENIED ≠ .undefined ∧
    ((∃ e, checkPermissions exampleCodes none (some ACCESS_LEVELS.KEEPER) = .error e) ↔
      accessDenied none (some ACCESS_LEVELS.KEEPER) = true) :=
  ⟨by simp [exampleCodes], by simp [exampleCodes],
    (checkPermissions_throws_iff exampleCodes none ACCESS_LEVELS.KEEPER
      (by simp [exampleCodes]) (by simp [exampleCodes])).1⟩

/-- C3: `routeHandler` authorizes against `max(a, b)` of the module level `a` and the
handler level `b`, each `ALL` when undeclared: the request is denied exactly when
it would be denied against `a` alone or against `b` alone. The check
`routeHandler` makes throws exactly then, and once the text of the debug log
line has been built the callback stops with the error of that check. -/
theorem accessDenied_requiredLevel (w : World) (codes : ApiCodes) (req : Req) (md : MethodData)
    (user : Option User) (a b : Option Int) :
    requiredLevel a b = max (a.getD ACCESS_LEVELS.ALL) (b.getD ACCESS_LEVELS.ALL) ∧
    accessDenied user (some (requiredLevel a b)) =
      (accessDenied user (some (a.getD ACCESS_LEVELS.ALL)) ||
        accessDenied user (some (b.getD ACCESS_LEVELS.ALL))) ∧
    ((∃ e, checkPermissions codes req.user
          (some (requiredLevel md.apiAccessLevel md.accessLevel)) = .error e) ↔
      (accessDenied req.user (some (md.apiAccessLevel.getD ACCESS_LEVELS.ALL)) ||
        accessDenied req.user (some (md.accessLevel.getD ACCESS_LEVELS.ALL))) = true) ∧
    (∀ line, templateString w (userVal req.user) = .ok line →
      ((∃ e, authorizeAndInvoke w codes req md = ([], .error e) ∧
          checkPermissions codes req.user
            (some (requiredLevel md.apiAccessLevel md.accessLevel)) = .error e) ↔
        (accessDenied req.user (some (md.apiAccessLevel.getD ACCESS_LEVELS.ALL)) ||
          accessDenied req.user (some (md.accessLevel.getD ACCESS_LEVELS.ALL))) = true)) := by
  have key : ∀ (user : Option User) (a b : Option Int),
      accessDenied user (some (requiredLevel a b)) =
        (accessDenied user (some (a.getD ACCESS_LEVELS.ALL)) ||
          accessDenied user (some (b.getD ACCESS_LEVELS.ALL))) := by
    intro user a b
    cases user with
    | none =>
      simp only [accessDenied, requiredLevel, Option.getD_some]
      by_cases h1 : a.getD ACCESS_LEVELS.ALL > ACCESS_LEVELS.ALL <;>
        by_cases h2 : b.getD ACCESS_LEVELS.ALL > ACCESS_LEVELS.ALL <;>
        simp_all [ACCESS_LEVELS.ALL]
    | some u =>
      cases hl : u.accessLevel with
      | none => simp [accessDenied, ltLevel, hl]
      | some x =>
        simp only [accessDenied, requiredLevel, Option.getD_some, ltLevel, hl]
        by_cases h1 : x < a.getD ACCESS_LEVELS.ALL <;>
          by_cases h2 : x < b.getD ACCESS_LEVELS.ALL <;>
          simp_all [ACCESS_LEVELS.ALL]
  have hthrow : accessDenied req.user
      (some (requiredLevel md.apiAccessLevel md.accessLevel)) = true →
      ∃ e, checkPermissions codes req.user
        (some (requiredLevel md.apiAccessLevel md.accessLevel)) = .error e := by
    intro hden
    simp only [checkPermissions, Option.getD_some, hden, if_true]
    cases req.user <;> exact ⟨_, rfl⟩
  refine ⟨rfl, key user a b, ?_, ?_⟩
  · rw [← key]
    cases hden : accessDenied req.user
        (some (requiredLevel md.apiAccessLevel md.accessLevel)) with
    | false => simp [checkPermissions_allowed codes req.user _ hden]
    | true => simpa using hthrow hden
  · intro line hlog
    rw [← key]
    cases hden : accessDenied req.user
        (some (requiredLevel md.apiAccessLevel md.accessLevel)) with
    | false => simp [checkPermissions_allowed codes req.user _ hden]
    | true =>
      simp only [iff_true]
      obtain ⟨e, he⟩ := hthrow hden
      exact ⟨e, by simp [authorizeAndInvoke, hlog, he], he⟩

/-- Witness of C3: an anonymous request for a module of level `KEEPER` whose
handler has level `ALL`. -/
theorem accessDenied_requiredLevel_witness :
    templateString (exampleWorld (.ok .null)) (userVal none) = .ok "undefined" ∧
    ((∃ e, authorizeAndInvoke (exampleWorld (.ok .null)) exampleCodes
          (exampleReq "forests" "list" (some "all") none) exampleMethodData = ([], .error e) ∧
        checkPermissions exampleCodes none
          (some (requiredLevel (some ACCESS_LEVELS.KEEPER) (some ACCESS_LEVELS.ALL))) =
            .error e) ↔
      (accessDenied none (some ACCESS_LEVELS.KEEPER) ||
        accessDenied none (some ACCESS_LEVELS.ALL)) = true) :=
  ⟨rfl,
    (accessDenied_requiredLevel (exampleWorld (.ok .null)) exampleCodes
      (exampleReq "forests" "list" (some "all") none) exampleMethodData none none none).2.2.2
        "undefined" rfl⟩

/-- The responses to denied requests: with no user and
`max(moduleLevel, handlerLevel) > ALL` status 401 with envelope code
`UNAUTHORIZED`; with a user whose `accessLevel` is below that maximum, and for
whom the text of the debug log line can be built, status 403 with envelope code
`ACCESS_DENIED`; the handler is not invoked in either case. -/
theorem denied_responses (w : World) (codes : ApiCodes) (req : Req)
    (md : MethodData) (hmd : getMethodData w codes req = .ok md)
    (hU : truthy codes.UNAUTHORIZED = true) (hD : truthy codes.ACCESS_DENIED = true) :
    (req.user = none → requiredLevel md.apiAccessLevel md.accessLevel > ACCESS_LEVELS.ALL →
      (routeHandler w codes req).events =
        [.status (.num 401),
         .json (errorEnvelope 401 codes.UNAUTHORIZED "You have no power. Authorize, please")] ∧
      invocations (routeHandler w codes req).events = []) ∧
    (∀ u a line, req.user = some u → u.accessLevel = some a →
      a < requiredLevel md.apiAccessLevel md.accessLevel →
      templateString w u.toVal = .ok line →
      (routeHandler w codes req).events =
        [.status (.num 403),
         .json (errorEnvelope 403 codes.ACCESS_DENIED "You have no power here")] ∧
      invocations (routeHandler w codes req).events = []) := by
  constructor
  · intro hu hl
    have hden : accessDenied none
        (some (requiredLevel md.apiAccessLevel md.accessLevel)) = true := by
      simp [accessDenied, hl]
    have hc := checkPermissions_anonymous codes _ hden (truthy_ne_undefined hU)
    have hlog := templateString_anonymous w
    rw [← hu] at hc hlog
    have hev := routeHandler_denied w codes req md STATUS_CODES.UNAUTHORIZED codes.UNAUTHORIZED
      _ _ hmd hlog (by decide) (by decide) hU (by decide) hc
    rw [hev]
    exact ⟨rfl, rfl⟩
  · intro u a line hu ha hl hlog
    have hden : accessDenied (some u)
        (some (requiredLevel md.apiAccessLevel md.accessLevel)) = true := by
      simp [accessDenied, ltLevel, ha, hl]
    have hc := checkPermissions_user codes u _ hden (truthy_ne_undefined hD)
    have hlog2 : templateString w (userVal (some u)) = .ok line := hlog
    rw [← hu] at hc hlog2
    have hev := routeHandler_denied w codes req md STATUS_CODES.FORBIDDEN codes.ACCESS_DENIED
      _ _ hmd hlog2 (by decide) (by decide) hD (by decide) hc
    rw [hev]
    exact ⟨rfl, rfl⟩

/-- C4, the code at the failing input: the user has access level 0, below the
required level 1, and an own property `toString` that is not a function. The
conversion of the user to a string for the debug log line throws a `TypeError`
before `checkPermissions` is called, and the response is status 500 with code
`UNKNOWN`, not status 403 with code `ACCESS_DENIED`. -/
theorem routeHandler_forbidden_user_without_rendering :
    getMethodData (exampleWorld (.ok (.str "done"))) exampleCodes
      (exampleReq "forests" "list" (some "all") (some (userWithoutRendering 0))) =
        .ok exampleMethodData ∧
    (userWithoutRendering 0).accessLevel = some 0 ∧
    0 < requiredLevel exampleMethodData.apiAccessLevel exampleMethodData.accessLevel ∧
    templateString (exampleWorld (.ok (.str "done")))
      (userVal (some (userWithoutRendering 0))) =
        .error (typeError "Cannot convert object to primitive value") ∧
    (routeHandler (exampleWorld (.ok (.str "done"))) exampleCodes
      (exampleReq "forests" "list" (some "all") (some (userWithoutRendering 0)))).events =
      [.status (.num 500),
       .json (.obj none [(.str "code", exampleCodes.UNKNOWN),
         (.str "body", .str "TypeError: Cannot convert object to primitive value"),
         (.sym .sResponseCode, .num 500)])] :=
  ⟨rfl, rfl, by decide, rfl, rfl⟩

/-- C5, counterexample: an authorized request whose handler returns an object
carrying an application code of its own is answered with that code, not with
`SUCCESS`. -/
theorem routeHandler_authorized_own_code :
    getMethodData (exampleWorld (.ok (.obj none [(.sym .sApiResponseCode, .str "CREATED")])))
      exampleCodes (exampleReq "forests" "list" (some "all") (some (userOfLevel 1))) =
        .ok exampleMethodData ∧
    requiredLevel exampleMethodData.apiAccessLevel exampleMethodData.accessLevel ≤ 1 ∧
    (routeHandler (exampleWorld (.ok (.obj none [(.sym .sApiResponseCode, .str "CREATED")])))
      exampleCodes (exampleReq "forests" "list" (some "all") (some (userOfLevel 1)))).events =
      controlHeaderEvents
          (exampleWorld (.ok (.obj none [(.sym .sApiResponseCode, .str "CREATED")]))) ++
        [.invoke (.user 0) (.obj none (metadata
            (exampleReq "forests" "list" (some "all") (some (userOfLevel 1))) exampleMethodData)),
         .json (.obj none [(.str "code", .str "CREATED"),
           (.str "body", .obj none [(.sym .sApiResponseCode, .str "CREATED")])])] ∧
    Val.str "CREATED" ≠ exampleCodes.SUCCESS :=
  ⟨rfl, by decide, rfl, by simp [exampleCodes]⟩

/-- C5, amended: for a request that resolves to a handler, whose body is neither
`undefined` nor `null`, whose user has an `accessLevel` of at least
`max(moduleLevel, handlerLevel)` (or which is anonymous while that level is
`ALL`), when the text of the debug log line can be built and setting the
control headers does not throw, and for every value `v` the handler returns
other than `null` and other than an error instance: the handler is invoked
exactly once, with the body as the enrichment step leaves it, and the envelope
sent has `v` as body (the empty object when `v` is `undefined`) and as code the
application code `v` carries when that is truthy, else `SUCCESS`. -/
theorem routeHandler_authorized (w : World) (codes : ApiCodes) (req : Req) (md : MethodData)
    (f : FnId) (declared : Option Int) (line : String) (body v : Val)
    (hmd : getMethodData w codes req = .ok md)
    (hauth : (req.user = none ∧
        requiredLevel md.apiAccessLevel md.accessLevel = ACCESS_LEVELS.ALL) ∨
      (∃ u a, req.user = some u ∧ u.accessLevel = some a ∧
        requiredLevel md.apiAccessLevel md.accessLevel ≤ a))
    (hlog : templateString w (userVal req.user) = .ok line)
    (hbody : objectAssign req.body (metadata req md) = .ok body)
    (hheaders : ∀ name value, w.setHeader name value = none)
    (hf : md.requestHandler = .fn f declared)
    (hcall : w.call f body = .ok v)
    (hn : v ≠ .null) (he : isError v = false) :
    ∃ envelope,
      (routeHandler w codes req).events =
        controlHeaderEvents w ++ [.invoke f body] ++ sendEvents (.obj none envelope) ∧
      invocations (routeHandler w codes req).events = [(f, body)] ∧
      lookupKey (.str "body") envelope = some (orEmptyObject v) ∧
      lookupKey (.str "code") envelope =
        some (if truthy (readProp (orEmptyObject v) (.sym .sApiResponseCode)) then
          readProp (orEmptyObject v) (.sym .sApiResponseCode) else codes.SUCCESS) := by
  have hallow : accessDenied req.user
      (some (requiredLevel md.apiAccessLevel md.accessLevel)) = false := by
    rcases hauth with ⟨hu, hl⟩ | ⟨u, a, hu, ha, hl⟩
    · simp [accessDenied, hu, hl]
    · simp [accessDenied, hu, ltLevel, ha, hl]
  obtain ⟨envelope, hcreate, hb, hcode, _⟩ := createResponseObject_value w codes v hn he
  have hev : (routeHandler w codes req).events =
      controlHeaderEvents w ++ [.invoke f body] ++ sendEvents (.obj none envelope) := by
    simp only [routeHandler, hmd, authorizeAndInvoke, hlog,
      checkPermissions_allowed codes _ _ hallow, hbody, setControlHeaders_ok w hheaders, hf,
      callHandler, hcall, hcreate, sendResponse_events]
  refine ⟨envelope, hev, ?_, hb, hcode⟩
  rw [hev]
  simp [invocations_append, invocations_sendEvents, controlHeaderEvents, invocations]

/-- Witness of C5: a user of level `KEEPER` lists the forests. -/
theorem routeHandler_authorized_witness :
    getMethodData (exampleWorld (.ok (.str "done"))) exampleCodes
      (exampleReq "forests" "list" (some "all") (some (userOfLevel 1))) = .ok exampleMethodData ∧
    templateString (exampleWorld (.ok (.str "done"))) (userVal (some (userOfLevel 1))) =
      .ok "[object Object]" ∧
    (∃ envelope,
      (routeHandler (exampleWorld (.ok (.str "done"))) exampleCodes
        (exampleReq "forests" "list" (some "all") (some (userOfLevel 1)))).events =
        controlHeaderEvents (exampleWorld (.ok (.str "done"))) ++
          [.invoke (.user 0) (.obj none (setKeys [] (metadata
            (exampleReq "forests" "list" (some "all") (some (userOfLevel 1)))
            exampleMethodData)))] ++
          sendEvents (.obj none envelope) ∧
      invocations (routeHandler (exampleWorld (.ok (.str "done"))) exampleCodes
        (exampleReq "forests" "list" (some "all") (some (userOfLevel 1)))).events =
        [(.user 0, .obj none (setKeys [] (metadata
            (exampleReq "forests" "list" (some "all") (some (userOfLevel 1)))
            exampleMethodData)))] ∧
      lookupKey (.str "body") envelope = some (orEmptyObject (.str "done")) ∧
      lookupKey (.str "code") envelope =
        some (if truthy (readProp (orEmptyObject (.str "done")) (.sym .sApiResponseCode)) then
          readProp (orEmptyObject (.str "done")) (.sym .sApiResponseCode)
          else exampleCodes.SUCCESS)) :=
  ⟨rfl, rfl,
    routeHandler_authorized (exampleWorld (.ok (.str "done"))) exampleCodes
      (exampleReq "forests" "list" (some "all") (some (userOfLevel 1))) exampleMethodData
      (.user 0) (some ACCESS_LEVELS.ALL) "[object Object]" _ (.str "done") rfl
      (Or.inr ⟨userOfLevel 1, 1, rfl, rfl, by decide⟩) rfl rfl (fun _ _ => rfl) rfl rfl
      (by simp) rfl⟩

/-- C6: the method name `getMethodData` looks up on the module is `action` itself
when `type` is empty, and `action` followed by `type` with its first character
upper-cased and the remaining characters unchanged when `type` is not empty;
action `list` with type `all` gives `listAll`. -/
theorem getMethodData_methodName (w : World) (codes : ApiCodes) (req : Req) :
    (∀ action, methodNameOf w.upper action "" = action) ∧
    (∀ action c cs,
      methodNameOf w.upper action (String.mk (c :: cs)) = action ++ (w.upper c ++ String.mk cs)) ∧
    methodNameOf asciiUpper "list" "all" = "listAll" ∧
    (∀ md, getMethodData w codes req = .ok md →
      md.methodName =
        methodNameOf w.upper (req.routeParams.action.getD "") (req.routeParams.type.getD "") ∧
      getProp md.api (.str md.methodName) = .ok md.requestHandler) := by
  refine ⟨fun _ => rfl, fun _ _ _ => rfl, by decide, ?_⟩
  intro md h
  obtain ⟨_, _, hname, hget, _⟩ := getMethodData_ok w codes req md h
  exact ⟨hname, hget⟩

/-- Witness of C6: the request `forests/list/all` looks up `listAll`. -/
theorem getMethodData_methodName_witness :
    getMethodData (exampleWorld (.ok .null)) exampleCodes
      (exampleReq "forests" "list" (some "all") none) = .ok exampleMethodData ∧
    exampleMethodData.methodName = "listAll" ∧
    exampleMethodData.methodName = methodNameOf asciiUpper "list" "all" ∧
    getProp exampleMethodData.api (.str "listAll") = .ok exampleMethodData.requestHandler :=
  ⟨rfl, rfl,
    ((getMethodData_methodName (exampleWorld (.ok .null)) exampleCodes
      (exampleReq "forests" "list" (some "all") none)).2.2.2 exampleMethodData rfl).1,
    ((getMethodData_methodName (exampleWorld (.ok .null)) exampleCodes
      (exampleReq "forests" "list" (some "all") none)).2.2.2 exampleMethodData rfl).2⟩

/-- C7, the code at the failing input: a request naming a module that does not
exist is answered with status 500 and code `UNKNOWN`; the error `require` throws
carries neither `NOT_FOUND` nor `API_NOT_FOUND`. -/
theorem routeHandler_missing_module :
    (exampleWorld (.ok .null)).require "../api/v1/gardens" = none ∧
    (routeHandler (exampleWorld (.ok .null)) exampleCodes
      (exampleReq "gardens" "list" (some "all") none)).events =
      [.status (.num 500),
       .json (.obj none [(.str "code", exampleCodes.UNKNOWN),
         (.str "body", .str "Error: Cannot find module \x27../api/v1/gardens\x27"),
         (.sym .sResponseCode, .num 500)])] :=
  ⟨rfl, rfl⟩

/-- C8, the code at the failing input: the module `forests` has no own property
`constructor`, yet a request for the action `constructor` resolves to the
function inherited from `Object.prototype`, which is invoked, and the response
is not `METHOD_NOT_FOUND`. -/
theorem routeHandler_inherited_method :
    ownProp exampleModule (.str "constructor") = none ∧
    (routeHandler (exampleWorld (.ok (.str "done"))) exampleCodes
      (exampleReq "forests" "constructor" none (some (userOfLevel 1)))).events =
      controlHeaderEvents (exampleWorld (.ok (.str "done"))) ++
        [.invoke (.objectProto "constructor") (.obj none [
            (.sym .sRequestObject, .host .req),
            (.sym .sResponseObject, .host .res),
            (.sym .sRequestUrl, .str "/api/v1"),
            (.sym .sRequestHeaders, .obj none []),
            (.sym .sRequestMethod, .str "POST"),
            (.sym .sRequestParams, .obj none [(.str "version", .str "v1"),
              (.str "apiName", .str "forests"), (.str "action", .str "constructor")]),
            (.sym .sMethodName, .str "constructor"),
            (.sym .sMethodVersion, .undefined),
            (.sym .sAuthorizedUser, .obj (some 1) [])]),
         .json (.obj none [(.str "code", exampleCodes.SUCCESS), (.str "body", .str "done")])] :=
  ⟨rfl, rfl⟩

/-- C9, counterexample: an error to which the API code 0 is attached gets the
envelope code `UNKNOWN`, not the attached code. -/
theorem createResponseObject_falsy_code :
    (throwResponseError exampleCodes (.num 400) (.num 0) (.str "bad input") : Except Val Val) =
      .error (responseError 400 (.num 0) "bad input") ∧
    readProp (responseError 400 (.num 0) "bad input") (.sym .sApiResponseCode) = .num 0 ∧
    createResponseObject (exampleWorld (.ok .null)) exampleCodes
      (responseError 400 (.num 0) "bad input") =
        .ok (errorEnvelope 400 exampleCodes.UNKNOWN "bad input") ∧
    exampleCodes.UNKNOWN ≠ .num 0 :=
  ⟨rfl, rfl, rfl, by simp [exampleCodes]⟩

/-- C9, amended: for every error instance `e`, `createResponseObject(e)` returns an
envelope whose status is the status attached to `e` when that is truthy, else
`SERVER_ERROR` (500); whose code is the API code attached to `e` when that is
truthy, else `UNKNOWN`; and whose body is the `detailedObject` of `e` when that is
truthy, else what the call `e.toString()` returns, which for an error without a
`toString` of its own is the string rendering of `e`. A plain error gives code
`UNKNOWN`, its string rendering as body, and status 500. -/
theorem createResponseObject_error (w : World) (codes : ApiCodes) (name message : String)
    (props : List (Key × Val)) (rendering : Val)
    (hr : truthy ((lookupKey (.str "detailedObject") props).getD .undefined) = false →
      callMethod w (.err name message props) "toString" = .ok rendering) :
    (∃ envelope,
      createResponseObject w codes (.err name message props) = .ok (.obj none envelope) ∧
      lookupKey (.sym .sResponseCode) envelope =
        some (match lookupKey (.sym .sResponseCode) props with
          | some status => if truthy status then status else .num STATUS_CODES.SERVER_ERROR
          | none => .num STATUS_CODES.SERVER_ERROR) ∧
      lookupKey (.str "code") envelope =
        some (match lookupKey (.sym .sApiResponseCode) props with
          | some apiCode => if truthy apiCode then apiCode else codes.UNKNOWN
          | none => codes.UNKNOWN) ∧
      lookupKey (.str "body") envelope =
        some (match lookupKey (.str "detailedObject") props with
          | some detail => if truthy detail then detail else rendering
          | none => rendering)) ∧
    (lookupKey (.str "toString") props = none →
      callMethod w (.err name message props) "toString" =
        .ok (.str (errorToString name message))) ∧
    STATUS_CODES.SERVER_ERROR = 500 ∧
    createResponseObject w codes (.err name message []) =
      .ok (.obj none [(.str "code", codes.UNKNOWN),
        (.str "body", .str (errorToString name message)),
        (.sym .sResponseCode, .num 500)]) := by
  have h2 : truthy Val.undefined = false := rfl
  refine ⟨⟨_, createResponseObject_errorInstance w codes name message props rendering hr,
    ?_, ?_, ?_⟩, callMethod_builtin_rendering w name message props, rfl, ?_⟩
  · cases h : lookupKey (.sym .sResponseCode) props <;> simp [lookupKey, jsOr, h2]
  · cases h : lookupKey (.sym .sApiResponseCode) props <;> simp [lookupKey, jsOr, h2]
  · cases h : lookupKey (.str "detailedObject") props <;> simp [lookupKey, jsOr, h2]
  · rw [createResponseObject_errorInstance w codes name message [] (.str (errorToString name message))
      (fun _ => callMethod_builtin_rendering w name message [] rfl)]
    rfl

/-- Witness of C9: the error `throwResponseError` throws for an unknown method. -/
theorem createResponseObject_error_witness :
    (truthy ((lookupKey (.str "detailedObject")
        [(.sym .sResponseCode, .num 404), (.sym .sApiResponseCode, .str "METHOD_NOT_FOUND")]).getD
          .undefined) = false →
      callMethod (exampleWorld (.ok .null))
        (.err "Error" "Undefined api method"
          [(.sym .sResponseCode, .num 404), (.sym .sApiResponseCode, .str "METHOD_NOT_FOUND")])
        "toString" = .ok (.str "Error: Undefined api method")) ∧
    createResponseObject (exampleWorld (.ok .null)) exampleCodes
      (.err "Error" "Undefined api method"
        [(.sym .sResponseCode, .num 404), (.sym .sApiResponseCode, .str "METHOD_NOT_FOUND")]) =
      .ok (.obj none [(.str "code", .str "METHOD_NOT_FOUND"),
        (.str "body", .str "Error: Undefined api method"),
        (.sym .sResponseCode, .num 404)]) ∧
    ∃ envelope,
      createResponseObject (exampleWorld (.ok .null)) exampleCodes
        (.err "Error" "Undefined api method"
          [(.sym .sResponseCode, .num 404), (.sym .sApiResponseCode, .str "METHOD_NOT_FOUND")]) =
        .ok (.obj none envelope) ∧
      lookupKey (.sym .sResponseCode) envelope = some (.num 404) ∧
      lookupKey (.str "code") envelope = some (.str "METHOD_NOT_FOUND") ∧
      lookupKey (.str "body") envelope = some (.str "Error: Undefined api method") :=
  ⟨fun _ => rfl, rfl,
    (createResponseObject_error (exampleWorld (.ok .null)) exampleCodes "Error"
      "Undefined api method"
      [(.sym .sResponseCode, .num 404), (.sym .sApiResponseCode, .str "METHOD_NOT_FOUND")]
      (.str "Error: Undefined api method") (fun _ => rfl)).1⟩

/-- C10, counterexample: for the value `undefined` the body of the envelope is a
new empty object, not `undefined`. -/
theorem createResponseObject_undefined :
    createResponseObject (exampleWorld (.ok .null)) exampleCodes .undefined =
      .ok (.obj none [(.str "code", exampleCodes.SUCCESS), (.str "body", .obj none [])]) ∧
    Val.obj none [] ≠ Val.undefined :=
  ⟨rfl, by simp⟩

/-- C10, amended: for every value `v` that is neither an error instance nor `null`,
`createResponseObject(v)` returns an envelope whose body is `v` (a new empty
object when `v` is `undefined`), whose code is the application code `v` carries
when that is truthy, else `SUCCESS`, and whose status is the response status `v`
carries when `v` is an object and that status is truthy; otherwise the envelope
has no status, and `sendResponse` calls `res.json` without calling
`res.status`. -/
theorem createResponseObject_nonError (w : World) (codes : ApiCodes) (v : Val)
    (hn : v ≠ .null) (he : isError v = false) :
    ∃ envelope, createResponseObject w codes v = .ok (.obj none envelope) ∧
      lookupKey (.str "body") envelope = some (orEmptyObject v) ∧
      lookupKey (.str "code") envelope =
        some (if truthy (readProp (orEmptyObject v) (.sym .sApiResponseCode)) then
          readProp (orEmptyObject v) (.sym .sApiResponseCode) else codes.SUCCESS) ∧
      lookupKey (.sym .sResponseCode) envelope =
        (if typeOf (orEmptyObject v) = .object ∧
            truthy (readProp (orEmptyObject v) (.sym .sResponseCode)) = true then
          some (readProp (orEmptyObject v) (.sym .sResponseCode)) else none) ∧
      (lookupKey (.sym .sResponseCode) envelope = none →
        (sendResponse w (.obj none envelope)).1 = [.json (.obj none envelope)]) := by
  obtain ⟨envelope, hcreate, hb, hcode, hstatus⟩ := createResponseObject_value w codes v hn he
  refine ⟨envelope, hcreate, hb, hcode, hstatus, ?_⟩
  intro hnone
  rw [sendResponse_events, sendEvents_no_status envelope hnone]

/-- Witness of C10: a handler result that asks for status 201. -/
theorem createResponseObject_nonError_witness :
    Val.obj none [(.sym .sResponseCode, .num 201)] ≠ .null ∧
    isError (.obj none [(.sym .sResponseCode, .num 201)]) = false ∧
    ∃ envelope,
      createResponseObject (exampleWorld (.ok .null)) exampleCodes
          (.obj none [(.sym .sResponseCode, .num 201)]) =
        .ok (.obj none envelope) ∧
      lookupKey (.str "body") envelope =
        some (orEmptyObject (.obj none [(.sym .sResponseCode, .num 201)])) ∧
      lookupKey (.str "code") envelope =
        some (if truthy (readProp (orEmptyObject (.obj none [(.sym .sResponseCode, .num 201)]))
            (.sym .sApiResponseCode)) then
          readProp (orEmptyObject (.obj none [(.sym .sResponseCode, .num 201)]))
            (.sym .sApiResponseCode) else exampleCodes.SUCCESS) ∧
      lookupKey (.sym .sResponseCode) envelope =
        (if typeOf (orEmptyObject (.obj none [(.sym .sResponseCode, .num 201)])) = .object ∧
            truthy (readProp (orEmptyObject (.obj none [(.sym .sResponseCode, .num 201)]))
              (.sym .sResponseCode)) = true then
          some (readProp (orEmptyObject (.obj none [(.sym .sResponseCode, .num 201)]))
            (.sym .sResponseCode)) else none) ∧
      (lookupKey (.sym .sResponseCode) envelope = none →
        (sendResponse (exampleWorld (.ok .null)) (.obj none envelope)).1 =
          [.json (.obj none envelope)]) :=
  ⟨by simp, rfl,
    createResponseObject_nonError (exampleWorld (.ok .null)) exampleCodes
      (.obj none [(.sym .sResponseCode, .num 201)]) (by simp) rfl⟩

/-- C11, the code at the failing input: `createResponseObject(null)` throws a
`TypeError` instead of returning an envelope; a handler that returns `null` is
therefore answered with status 500 and code `UNKNOWN`. -/
theorem createResponseObject_null :
    createResponseObject (exampleWorld (.ok .null)) exampleCodes .null =
      .error (typeError "Cannot read property of null") ∧
    (routeHandler (exampleWorld (.ok .null)) exampleCodes
      (exampleReq "forests" "list" (some "all") (some (userOfLevel 1)))).events =
      controlHeaderEvents (exampleWorld (.ok .null)) ++
        [.invoke (.user 0) (.obj none (metadata
            (exampleReq "forests" "list" (some "all") (some (userOfLevel 1))) exampleMethodData)),
         .status (.num 500),
         .json (.obj none [(.str "code", exampleCodes.UNKNOWN),
           (.str "body", .str "TypeError: Cannot read property of null"),
           (.sym .sResponseCode, .num 500)])] :=
  ⟨rfl, rfl⟩

/-- C12: whatever resolution, authorization, the handler and the response object
do, the promise `routeHandler` returns is fulfilled: with `true` when
`sendResponse` returned, with `undefined` when the last `catch` took over. -/
theorem routeHandler_settles (w : World) (codes : ApiCodes) (req : Req) :
    (routeHandler w codes req).settled = .ok (.bool true) ∨
    (routeHandler w codes req).settled = .ok .undefined := by
  simp only [routeHandler]
  split
  · rename_i v hv
    left
    split at hv
    · rw [sendResponse_returns w _ v hv]
    · simp at hv
  · exact Or.inr rfl

/-- C13, the code at the failing input: the handler throws an error instance
whose own property `toString` is not a function. `createResponseObject` then
throws inside the `catch` callback, `sendResponse` is skipped, and `res.json` is
never called. -/
theorem routeHandler_error_without_rendering :
    isError errorWithoutRendering = true ∧
    createResponseObject (exampleWorld (.error errorWithoutRendering)) exampleCodes
      errorWithoutRendering = .error (typeError "toString is not a function") ∧
    (routeHandler (exampleWorld (.error errorWithoutRendering)) exampleCodes
      (exampleReq "forests" "list" (some "all") (some (userOfLevel 1)))).events =
      controlHeaderEvents (exampleWorld (.error errorWithoutRendering)) ++
        [.invoke (.user 0) (.obj none (metadata
            (exampleReq "forests" "list" (some "all") (some (userOfLevel 1)))
            exampleMethodData))] ∧
    jsonCalls (routeHandler (exampleWorld (.error errorWithoutRendering)) exampleCodes
      (exampleReq "forests" "list" (some "all") (some (userOfLevel 1)))).events = [] :=
  ⟨rfl, rfl, rfl, rfl⟩

/-- C14: the enrichment step leaves the value of the body at every string key
unchanged, and stores under each reserved key the metadata value, which does
not depend on the body: every reserved key is a symbol, distinct from every
string key and from every other reserved key. -/
theorem enrichment_frame (req : Req) (md : MethodData) (enriched : Val)
    (h : objectAssign req.body (metadata req md) = .ok enriched) :
    (∀ k : String, readProp enriched (.str k) = readProp req.body (.str k)) ∧
    (∀ level props, req.body = .obj level props → ∀ s v,
      lookupKey (.sym s) (metadata req md) = some v → readProp enriched (.sym s) = v) ∧
    (∀ body, metadata { req with body := body } md = metadata req md) ∧
    ((metadata req md).map Prod.fst).Nodup ∧
    (∀ k ∈ (metadata req md).map Prod.fst, ∃ s, k = Key.sym s) ∧
    (∀ (s : Sym) (k : String), Key.sym s ≠ Key.str k) := by
  refine ⟨?_, ?_, fun _ => rfl, by simp [metadata], by simp [metadata], fun s k h => by cases h⟩
  · intro k
    cases hb : req.body with
    | undefined => rw [hb] at h; simp [objectAssign] at h
    | null => rw [hb] at h; simp [objectAssign] at h
    | obj level props =>
      rw [hb] at h
      simp only [objectAssign, Except.ok.injEq] at h
      subst h
      simp only [readProp, ownProp, lookupKey_metadata_str]
    | err name message props =>
      rw [hb] at h
      simp only [objectAssign, Except.ok.injEq] at h
      subst h
      simp only [readProp, ownProp, lookupKey_metadata_str]
    | _ =>
      rw [hb] at h
      simp only [objectAssign, Except.ok.injEq] at h
      subst h
      rfl
  · intro level props hb s v hv
    rw [hb] at h
    simp only [objectAssign, Except.ok.injEq] at h
    subst h
    simp [readProp, ownProp, lookupKey_metadata_sym req md props s v hv]

/-- Witness of C14: a body that uses `sRequestUrl` as a string key. -/
theorem enrichment_frame_witness :
    objectAssign forgedReq.body (metadata forgedReq exampleMethodData) =
      .ok (.obj none (setKeys
        [(.str "sRequestUrl", .str "forged"), (.str "sAuthorizedUser", .str "root")]
        (metadata forgedReq exampleMethodData))) ∧
    readProp (.obj none (setKeys
        [(.str "sRequestUrl", .str "forged"), (.str "sAuthorizedUser", .str "root")]
        (metadata forgedReq exampleMethodData))) (.str "sRequestUrl") =
      readProp forgedReq.body (.str "sRequestUrl") ∧
    readProp forgedReq.body (.str "sRequestUrl") = .str "forged" :=
  ⟨rfl, (enrichment_frame forgedReq exampleMethodData _ rfl).1 "sRequestUrl", rfl⟩

/-- C15, the code at the failing input: `getMethodData` resolves the version `v1`,
yet the body passed to the handler holds `undefined` under `sMethodVersion`
(`routeHandler` reads `apiVersionName`, which `getMethodData` does not return);
the method name under `sMethodName` is the resolved one. -/
theorem routeHandler_method_version :
    getMethodData (exampleWorld (.ok (.str "done"))) exampleCodes
      (exampleReq "forests" "list" (some "all") (some (userOfLevel 1))) = .ok exampleMethodData ∧
    exampleMethodData.version = "v1" ∧
    ∃ body,
      invocations (routeHandler (exampleWorld (.ok (.str "done"))) exampleCodes
        (exampleReq "forests" "list" (some "all") (some (userOfLevel 1)))).events =
        [(.user 0, body)] ∧
      ownProp body (.sym .sMethodName) = some (.str "listAll") ∧
      ownProp body (.sym .sMethodVersion) = some .undefined :=
  ⟨rfl, rfl, _, rfl, rfl, rfl⟩

/-- C16, counterexample: the response to an anonymous request for a module of
level `KEEPER` is sent with status 401 and no header has been set. -/
theorem unauthorized_response_has_no_header :
    (routeHandler (exampleWorld (.ok .null)) exampleCodes
      (exampleReq "forests" "list" (some "all") none)).events =
      [.status (.num 401),
       .json (errorEnvelope 401 exampleCodes.UNAUTHORIZED "You have no power. Authorize, please")] ∧
    headerCalls (routeHandler (exampleWorld (.ok .null)) exampleCodes
      (exampleReq "forests" "list" (some "all") none)).events = [] :=
  ⟨rfl, rfl⟩

/-- C16, amended: for every request that resolves to a handler, passes
authorization and has a body that is neither `undefined` nor `null`, when the
text of the debug log line can be built and `res.setHeader` does not throw, the
headers `X-Version = packageDescription`, `X-Content-Type-Options = nosniff`,
`X-Frame-Options = DENY` and `Cache-Control = no-cache` are set, in this order,
before the handler is invoked, whatever the handler and the sending do after. -/
theorem routeHandler_control_headers (w : World) (codes : ApiCodes) (req : Req)
    (md : MethodData) (f : FnId) (declared : Option Int) (line : String) (body : Val)
    (hmd : getMethodData w codes req = .ok md)
    (hlog : templateString w (userVal req.user) = .ok line)
    (hauth : accessDenied req.user (some (requiredLevel md.apiAccessLevel md.accessLevel)) = false)
    (hbody : objectAssign req.body (metadata req md) = .ok body)
    (hheaders : ∀ name value, w.setHeader name value = none)
    (hf : md.requestHandler = .fn f declared) :
    (∃ rest, (routeHandler w codes req).events =
      [.setHeader "X-Version" w.packageDescription,
       .setHeader "X-Content-Type-Options" "nosniff",
       .setHeader "X-Frame-Options" "DENY",
       .setHeader "Cache-Control" "no-cache",
       .invoke f body] ++ rest) ∧
    headerCalls (routeHandler w codes req).events =
      [("X-Version", w.packageDescription), ("X-Content-Type-Options", "nosniff"),
       ("X-Frame-Options", "DENY"), ("Cache-Control", "no-cache")] := by
  have hev : ∃ sent : List Event × Except Val Val, headerCalls sent.1 = [] ∧
      (routeHandler w codes req).events =
        controlHeaderEvents w ++ [.invoke f body] ++ sent.1 := by
    simp only [routeHandler, hmd, authorizeAndInvoke, hlog,
      checkPermissions_allowed codes _ _ hauth, hbody, setControlHeaders_ok w hheaders, hf,
      callHandler]
    refine ⟨_, ?_, rfl⟩
    split
    · exact headerCalls_sendResponse w _
    · rfl
  obtain ⟨sent, hsent, hev⟩ := hev
  constructor
  · exact ⟨sent.1, by rw [hev]; rfl⟩
  · rw [hev]
    simp [headerCalls_append, hsent, controlHeaderEvents, headerCalls]

/-- Witness of C16: a user of level `KEEPER` whose handler throws. -/
theorem routeHandler_control_headers_witness :
    getMethodData (exampleWorld (.error (.err "Error" "boom" []))) exampleCodes
      (exampleReq "forests" "list" (some "all") (some (userOfLevel 1))) = .ok exampleMethodData ∧
    templateString (exampleWorld (.error (.err "Error" "boom" [])))
      (userVal (some (userOfLevel 1))) = .ok "[object Object]" ∧
    headerCalls (routeHandler (exampleWorld (.error (.err "Error" "boom" []))) exampleCodes
      (exampleReq "forests" "list" (some "all") (some (userOfLevel 1)))).events =
      [("X-Version", "seedler#1.0.0"), ("X-Content-Type-Options", "nosniff"),
       ("X-Frame-Options", "DENY"), ("Cache-Control", "no-cache")] :=
  ⟨rfl, rfl,
    (routeHandler_control_headers (exampleWorld (.error (.err "Error" "boom" []))) exampleCodes
      (exampleReq "forests" "list" (some "all") (some (userOfLevel 1))) exampleMethodData
      (.user 0) (some ACCESS_LEVELS.ALL) "[object Object]" _ rfl rfl rfl rfl (fun _ _ => rfl)
      rfl).2⟩

/-- C17, the code at the failing input: with a response object whose `status` and
`json` both throw, `sendResponse` catches the first throw and calls `res.json`
with the envelope, but the throw of `res.json` leaves `sendResponse`: it does
not return `true`. -/
theorem sendResponse_status_and_json_throw :
    sendResponse
      (responseWorld (.ok .null) (some (typeError "headers sent")) (some (typeError "headers sent")))
      (errorEnvelope 500 exampleCodes.UNKNOWN "boom") =
      ([.status (.num 500), .json (errorEnvelope 500 exampleCodes.UNKNOWN "boom")],
        .error (typeError "headers sent")) :=
  rfl

/-- C18, the code at the failing input: when `res.json` throws, `sendResponse`
throws to its caller instead of returning `true`. -/
theorem sendResponse_json_throws :
    sendResponse (responseWorld (.ok .null) none (some (typeError "circular structure")))
      (.obj none [(.str "code", exampleCodes.SUCCESS), (.str "body", .str "done")]) =
      ([.json (.obj none [(.str "code", exampleCodes.SUCCESS), (.str "body", .str "done")])],
        .error (typeError "circular structure")) :=
  rfl

/-- C19, the code at the failing input: the method `listAll` resolves when it is
addressed as `listAll`, but addressing it as `list_all` fails with
`METHOD_NOT_FOUND`. -/
theorem getMethodData_snake_case :
    getMethodData (exampleWorld (.ok .null)) exampleCodes
      (exampleReq "forests" "listAll" none none) =
        .ok { exampleMethodData with methodName := "listAll" } ∧
    getMethodData (exampleWorld (.ok .null)) exampleCodes
      (exampleReq "forests" "list_all" none none) =
        .error (responseError STATUS_CODES.NOT_FOUND exampleCodes.METHOD_NOT_FOUND
          "Undefined api method: list_all from url: /api/v1") :=
  ⟨rfl, rfl⟩

/-- C20: for a user object without an `accessLevel` field and every required level
`n`, `accessDenied(user, n)` is false and `checkPermissions(user, n)` does not
throw; so it is at level `SYSTEM`. -/
theorem accessDenied_without_level (codes : ApiCodes) (props : List (Key × Val)) (n : Int) :
    accessDenied (some ⟨none, props⟩) (some n) = false ∧
    checkPermissions codes (some ⟨none, props⟩) (some n) = .ok () ∧
    accessDenied (some ⟨none, props⟩) (some ACCESS_LEVELS.SYSTEM) = false := by
  have h : ∀ m, accessDenied (some ⟨none, props⟩) (some m) = false := by
    intro m
    simp [accessDenied, ltLevel]
  exact ⟨h n, checkPermissions_allowed codes _ n (h n), h _⟩

end Seedler
